import Mathlib

/-!
Verification of the in-process task scheduler (`src/utils/schedule.ts`,
class `TaskScheduler`) against its natural-language specification.

The TypeScript class is shallowly embedded: wall-clock time is an `Int`
(milliseconds since the epoch, threaded explicitly as `now`); the two
`Map`s (`tasks`, `scheduledJobs`) are association lists over `String`
keys; `console.error` is modelled as an append-only diagnostic log of
`(taskName, error)` pairs; a thrown JS exception is the `.error` side of
an `Except`, and — because JS exceptions do not roll back mutations —
every fallible operation returns the post-state alongside the outcome.
A task's callback is modelled by its outcome at invocation
(`Except String Unit`: `ok` = returns normally, `error e` = throws `e`).
Calendar arithmetic (`date-fns` `addMinutes`/`addHours`/`addDays`) is
modelled as millisecond arithmetic with the fixed factors 60000,
3600000 and 86400000.  The ad-hoc tagged union for intervals
(presence-of-property checks in the source) is modelled by an inductive
with a fourth `malformed` constructor standing for a value that
matches none of the three recognized shapes, which the dynamically
typed source admits at run time.
-/

namespace NodeScheduler

/-- Lifecycle status of a task: `'scheduled' | 'paused'` in `taskTypes`. -/
inductive Status where
  | scheduled
  | paused
deriving DecidableEq, Repr

/-- The `Interval` tagged union from `taskTypes.ts`:
`{unit, value}` recurring, `{type: 'once', date}`, `{next: () => Date}`
(the cron wrapper; the lazily invoked evaluator is modelled as a function
of the current time), plus `malformed` for a runtime value matching none
of the three property-shape checks in `_scheduleNextRun`. The unit is a
`String` because the runtime check in `_calculateNextRun` has a default
branch for unrecognized units. -/
inductive Interval where
  | recurring (unit : String) (value : Int)
  | once (date : Int)
  | cron (next : Int → Except String Int)
  | malformed

/-- `ScheduleOptions` from `taskTypes.ts`. -/
structure ScheduleOptions where
  type : Option String := none
  retryOnError : Option Bool := none
  retryDelay : Option Int := none

/-- A registered task (`Task` in `taskTypes.ts`): its callback is modelled
by the outcome of invoking it. -/
structure Task where
  callback : Except String Unit
  interval : Interval
  options : ScheduleOptions
  status : Status

/-- An armed timer entry of the `scheduledJobs` map: the timer handle `id`
is irrelevant to the observable state, only the recorded fire time is kept. -/
structure ScheduledJob where
  scheduledTime : Int
deriving DecidableEq, Repr

/-- The mutable state of one `TaskScheduler` instance: the task registry,
the timer set, and the diagnostic sink (`console.error`) as a log. -/
structure SchedulerState where
  tasks : List (String × Task)
  scheduledJobs : List (String × ScheduledJob)
  log : List (String × String)

/-- `Map.prototype.get`. -/
def mapGet {α : Type} (m : List (String × α)) (k : String) : Option α :=
  match m with
  | [] => none
  | (k', v) :: rest => if k' = k then some v else mapGet rest k

/-- `Map.prototype.set` (replace in place, else append). -/
def mapSet {α : Type} (m : List (String × α)) (k : String) (v : α) :
    List (String × α) :=
  match m with
  | [] => [(k, v)]
  | (k', v') :: rest =>
      if k' = k then (k, v) :: rest else (k', v') :: mapSet rest k v

/-- `Map.prototype.delete` (drop every binding of the key; the maps built
by the scheduler bind each key at most once, so this agrees with JS). -/
def mapDelete {α : Type} (m : List (String × α)) (k : String) :
    List (String × α) :=
  match m with
  | [] => []
  | (k', v') :: rest =>
      if k' = k then mapDelete rest k else (k', v') :: mapDelete rest k

/-- `Map.prototype.has`. -/
def mapHas {α : Type} (m : List (String × α)) (k : String) : Bool :=
  (mapGet m k).isSome

/-- The errors the scheduler throws, one constructor per `throw new Error`
site in `schedule.ts`, plus `external` for an error thrown by a supplied
cron `next` function. -/
inductive SchedErr where
  | duplicateTask (name : String)
  | notInFuture
  | taskNotFound (name : String)
  | unsupportedUnit (unit : String)
  | invalidInterval
  | external (e : String)
deriving DecidableEq, Repr

/-- Render a `SchedErr` for the diagnostic log (what `console.error`
would receive when the dispatcher catches an internal error). -/
def SchedErr.message : SchedErr → String
  | .duplicateTask n => "Task " ++ n ++ " already exists"
  | .notInFuture => "Scheduled time must be in the future"
  | .taskNotFound n => "Task " ++ n ++ " not found"
  | .unsupportedUnit u => "Unsupported interval unit: " ++ u
  | .invalidInterval => "Invalid interval configuration"
  | .external e => e

/-- Outcome of a fallible scheduler operation: the JS return value or
thrown error, together with the state as left behind (JS exceptions do
not undo earlier mutations). -/
structure OpResult (α : Type) where
  result : Except SchedErr α
  state : SchedulerState

/-- `_calculateNextRun`: next run time for regular intervals — `now` plus
the unit-scaled offset, with the `default: throw` branch for an
unrecognized unit. -/
def calculateNextRun (now : Int) (unit : String) (value : Int) :
    Except SchedErr Int :=
  if unit = "minutes" then .ok (now + value * 60000)
  else if unit = "hours" then .ok (now + value * 3600000)
  else if unit = "days" then .ok (now + value * 86400000)
  else .error (.unsupportedUnit unit)

/-- The `if`-chain of `_scheduleNextRun` that picks the next fire time:
`'next' in interval` (cron), then `type === 'once'`, then
`'unit' in interval && 'value' in interval`, else
`throw new Error('Invalid interval configuration')`. -/
def computeNext (interval : Interval) (now : Int) : Except SchedErr Int :=
  match interval with
  | .cron next =>
      match next now with
      | .ok d => .ok d
      | .error e => .error (.external e)
  | .once date => .ok date
  | .recurring unit value => calculateNextRun now unit value
  | .malformed => .error .invalidInterval

/-- `_scheduleNextRun`: silently skip when the task is absent or paused;
otherwise compute the next fire time from `now` and record the armed
timer in `scheduledJobs` (arming the `setTimeout` for
`nextRun - now` milliseconds). -/
def scheduleNextRun (s : SchedulerState) (now : Int) (taskName : String) :
    OpResult Unit :=
  match mapGet s.tasks taskName with
  | none => ⟨.ok (), s⟩
  | some task =>
      if task.status = .paused then ⟨.ok (), s⟩
      else
        match computeNext task.interval now with
        | .error e => ⟨.error e, s⟩
        | .ok nextRun =>
            ⟨.ok (), { s with
              scheduledJobs := mapSet s.scheduledJobs taskName ⟨nextRun⟩ }⟩

/-- `scheduleTask`: throw on a duplicate name, otherwise insert the task
with status `scheduled` and arm it; an exception from the arming step
propagates with the registry insertion already performed. -/
def scheduleTask (s : SchedulerState) (now : Int) (taskName : String)
    (callback : Except String Unit) (interval : Interval)
    (options : ScheduleOptions) : OpResult String :=
  if mapHas s.tasks taskName then ⟨.error (.duplicateTask taskName), s⟩
  else
    let task : Task :=
      { callback := callback, interval := interval,
        options := options, status := .scheduled }
    let s1 := { s with tasks := mapSet s.tasks taskName task }
    let armed := scheduleNextRun s1 now taskName
    match armed.result with
    | .ok _ => ⟨.ok taskName, armed.state⟩
    | .error e => ⟨.error e, armed.state⟩

/-- `scheduleCron`: wrap the external cron evaluator as a `next` function
and register through `scheduleTask` with `type: 'cron'` in the options. -/
def scheduleCron (s : SchedulerState) (now : Int) (taskName : String)
    (callback : Except String Unit) (next : Int → Except String Int)
    (options : ScheduleOptions) : OpResult String :=
  scheduleTask s now taskName callback (.cron next)
    { options with type := some "cron" }

/-- `scheduleOnce`: throw when the date is not strictly in the future,
otherwise register through `scheduleTask` with a one-time interval
(and the default `options ?? {}`). -/
def scheduleOnce (s : SchedulerState) (now : Int) (taskName : String)
    (callback : Except String Unit) (date : Int) : OpResult String :=
  if date ≤ now then ⟨.error .notInFuture, s⟩
  else scheduleTask s now taskName callback (.once date) {}

/-- `cancelTask`: clear and drop any armed timer, then remove the task
from the registry; never throws. -/
def cancelTask (s : SchedulerState) (taskName : String) : SchedulerState :=
  let s1 :=
    match mapGet s.scheduledJobs taskName with
    | some _ => { s with scheduledJobs := mapDelete s.scheduledJobs taskName }
    | none => s
  { s1 with tasks := mapDelete s1.tasks taskName }

/-- `pauseTask`: throw when the task is unknown; otherwise set its status
to `paused` and then call `cancelTask` on it (which, in this code,
removes the registry entry as well as the timer). -/
def pauseTask (s : SchedulerState) (taskName : String) : OpResult Unit :=
  match mapGet s.tasks taskName with
  | none => ⟨.error (.taskNotFound taskName), s⟩
  | some task =>
      let s1 :=
        { s with tasks := mapSet s.tasks taskName { task with status := .paused } }
      ⟨.ok (), cancelTask s1 taskName⟩

/-- `resumeTask`: throw when the task is unknown; when its status is
`paused`, set it back to `scheduled` and re-arm from `now`; otherwise
do nothing. -/
def resumeTask (s : SchedulerState) (now : Int) (taskName : String) :
    OpResult Unit :=
  match mapGet s.tasks taskName with
  | none => ⟨.error (.taskNotFound taskName), s⟩
  | some task =>
      if task.status = .paused then
        let s1 :=
          { s with
            tasks := mapSet s.tasks taskName { task with status := .scheduled } }
        scheduleNextRun s1 now taskName
      else ⟨.ok (), s⟩

/-- `_getNextRunTime`: the recorded fire time of the armed timer, if any. -/
def getNextRunTime (s : SchedulerState) (taskName : String) : Option Int :=
  match mapGet s.scheduledJobs taskName with
  | none => none
  | some job => some job.scheduledTime

/-- The record returned by `getTaskStatus`. -/
structure TaskStatus where
  name : String
  status : Status
  nextRun : Option Int
deriving DecidableEq, Repr

/-- `getTaskStatus`: `null` when the name is unknown, else
`{name, status, nextRun}`. -/
def getTaskStatus (s : SchedulerState) (taskName : String) :
    Option TaskStatus :=
  match mapGet s.tasks taskName with
  | none => none
  | some task => some ⟨taskName, task.status, getNextRunTime s taskName⟩

/-- Whether the dispatcher's retirement check
`'type' in task.interval && task.interval.type === 'once'` holds. -/
def Interval.isOnce : Interval → Bool
  | .once _ => true
  | _ => false

/-- `_executeTask`: invoke the callback inside `try`; on normal return,
retire a one-time task or re-schedule a recurring/cron one (the
re-schedule sits inside the same `try`, so an error it throws is also
caught); `catch` reports `(taskName, error)` to the diagnostic sink and
swallows the error.  A callback that throws reaches the `catch` before
the retire/re-schedule branch runs. -/
def executeTask (s : SchedulerState) (now : Int) (taskName : String)
    (task : Task) : SchedulerState :=
  match task.callback with
  | .error e => { s with log := s.log ++ [(taskName, e)] }
  | .ok _ =>
      if task.interval.isOnce then
        { s with
          tasks := mapDelete s.tasks taskName,
          scheduledJobs := mapDelete s.scheduledJobs taskName }
      else
        let armed := scheduleNextRun s now taskName
        match armed.result with
        | .ok _ => armed.state
        | .error e =>
            { armed.state with
              log := armed.state.log ++ [(taskName, e.message)] }

/-! ### Association-list lemmas -/

theorem mapGet_set_self {α : Type} (m : List (String × α)) (k : String)
    (v : α) : mapGet (mapSet m k v) k = some v := by
  induction m with
  | nil => simp [mapSet, mapGet]
  | cons p rest ih =>
      obtain ⟨k', v'⟩ := p
      by_cases h : k' = k <;> simp [mapSet, mapGet, h, ih]

theorem mapGet_delete_self {α : Type} (m : List (String × α)) (k : String) :
    mapGet (mapDelete m k) k = none := by
  induction m with
  | nil => simp [mapDelete, mapGet]
  | cons p rest ih =>
      obtain ⟨k', v'⟩ := p
      by_cases h : k' = k <;> simp [mapDelete, mapGet, h, ih]

theorem mapDelete_idem {α : Type} (m : List (String × α)) (k : String) :
    mapDelete (mapDelete m k) k = mapDelete m k := by
  induction m with
  | nil => simp [mapDelete]
  | cons p rest ih =>
      obtain ⟨k', v'⟩ := p
      by_cases h : k' = k <;> simp [mapDelete, h, ih]

theorem mapDelete_of_get_none {α : Type} (m : List (String × α))
    (k : String) (h : mapGet m k = none) : mapDelete m k = m := by
  induction m with
  | nil => simp [mapDelete]
  | cons p rest ih =>
      obtain ⟨k', v'⟩ := p
      by_cases hk : k' = k
      · simp [mapGet, hk] at h
      · simp [mapGet, hk] at h
        simp [mapDelete, hk, ih h]

theorem mapHas_false_of_get_none {α : Type} (m : List (String × α))
    (k : String) (h : mapGet m k = none) : mapHas m k = false := by
  simp [mapHas, h]

/-- `cancelTask` in closed form: it always ends with both maps purged of
the name and the log untouched. -/
theorem cancelTask_eq (s : SchedulerState) (n : String) :
    cancelTask s n =
      ⟨mapDelete s.tasks n, mapDelete s.scheduledJobs n, s.log⟩ := by
  unfold cancelTask
  cases h : mapGet s.scheduledJobs n with
  | none => simp [mapDelete_of_get_none _ _ h]
  | some job => rfl

/-! ### Concrete scheduler runs used by the claims -/

/-- A callback that returns normally. -/
def cbOk : Except String Unit := .ok ()

/-- A callback that throws the error `"boom"`. -/
def cbBoom : Except String Unit := .error "boom"

/-- A freshly constructed `TaskScheduler`. -/
def emptyState : SchedulerState := ⟨[], [], []⟩

/-- `scheduleTask('report', ok-callback, {unit:'minutes', value:5})`
executed at time 0. -/
def regState : SchedulerState :=
  (scheduleTask emptyState 0 "report" cbOk (.recurring "minutes" 5) {}).state

/-- `regState` followed by `pauseTask('report')`. -/
def pausedState : SchedulerState := (pauseTask regState "report").state

/-- The task object for a recurring 5-minute task whose callback throws
`"boom"` (the object the fired timer's closure passes to `_executeTask`). -/
def boomTask : Task :=
  { callback := cbBoom, interval := .recurring "minutes" 5,
    options := {}, status := .scheduled }

/-- `scheduleTask('job', throwing-callback, {unit:'minutes', value:5})`
executed at time 0; its timer is armed for time 300000. -/
def boomState : SchedulerState :=
  (scheduleTask emptyState 0 "job" cbBoom (.recurring "minutes" 5) {}).state

/-- The task object for a one-time task at time 1000 whose callback
throws `"boom"`. -/
def onceBoomTask : Task :=
  { callback := cbBoom, interval := .once 1000, options := {},
    status := .scheduled }

/-- `scheduleOnce('fire', throwing-callback, 1000)` executed at time 0. -/
def onceBoomState : SchedulerState :=
  (scheduleOnce emptyState 0 "fire" cbBoom 1000).state

/-- The task object for a one-time task at time 1000 whose callback
returns normally. -/
def onceOkTask : Task :=
  { callback := cbOk, interval := .once 1000, options := {},
    status := .scheduled }

/-- `scheduleOnce('tick', ok-callback, 1000)` executed at time 0. -/
def onceOkState : SchedulerState :=
  (scheduleOnce emptyState 0 "tick" cbOk 1000).state

/-- A task carrying the unrecognized recurring unit `weeks` (the runtime
value an untyped caller can pass; the TypeScript `default:` branch of
`_calculateNextRun` exists for it). -/
def weeksTask : Task :=
  { callback := cbOk, interval := .recurring "weeks" 1, options := {},
    status := .scheduled }

/-- A registry holding `weeksTask` under the name `w`, with no timer. -/
def weeksState : SchedulerState := ⟨[("w", weeksTask)], [], []⟩

/-! ### The claims -/

/-- Claim C1. The claim states that when a recurring/cron task's callback
throws at dispatch, the scheduler does not crash, the error is reported
exactly once tagged with the task name, AND the task is re-armed with a
new fire time.  The code disagrees on the last part: in `_executeTask`
the re-schedule call sits inside the `try` after the callback, so a
throwing callback jumps straight to `catch`, which only logs.  At the
concrete run (recurring 5-minute task `job` armed at 0, fired at 300000,
callback throws `boom`): the error is logged exactly once tagged `job`,
but the timer set still holds only the stale entry for 300000 — no new
timer with a new fire time was armed. -/
theorem callback_error_reported_once_but_not_rearmed :
    (executeTask boomState 300000 "job" boomTask).log = [("job", "boom")] ∧
    (executeTask boomState 300000 "job" boomTask).scheduledJobs =
      boomState.scheduledJobs ∧
    getNextRunTime (executeTask boomState 300000 "job" boomTask) "job" =
      some 300000 :=
  ⟨rfl, rfl, rfl⟩

/-- Claim C2. The claim states that pausing a `scheduled` task retains
its registry entry with status `paused`, so `getTaskStatus` afterwards
returns a record with status `paused` and `nextRun` null.  The code
disagrees: `pauseTask` sets the status and then calls `cancelTask`,
which deletes the registry entry as well as the timer.  Concretely:
after registering recurring task `report` (status `scheduled`, next run
300000), `pauseTask` returns normally but the registry is left empty and
`getTaskStatus` returns null, not a `paused` record. -/
theorem pause_removes_registry_entry :
    getTaskStatus regState "report" =
      some ⟨"report", .scheduled, some 300000⟩ ∧
    (pauseTask regState "report").result = .ok () ∧
    getTaskStatus pausedState "report" = none ∧
    pausedState.tasks = [] :=
  ⟨rfl, rfl, rfl, rfl⟩

/-- Claim C3. The claim states a one-time task is removed from registry
and timer set after its timer fires regardless of callback outcome.  The
code removes it only on normal return: the two `delete` calls sit inside
the `try` after the callback, so a throwing callback skips them.
Concretely: one-time task `fire` (target 1000) with a throwing callback
is still present after dispatch, with the stale `nextRun` 1000, while
the same run with a normally returning callback (`tick`) is removed. -/
theorem once_throwing_callback_not_retired :
    getTaskStatus (executeTask onceBoomState 1000 "fire" onceBoomTask)
      "fire" = some ⟨"fire", .scheduled, some 1000⟩ ∧
    (executeTask onceBoomState 1000 "fire" onceBoomTask).log =
      [("fire", "boom")] ∧
    getTaskStatus (executeTask onceOkState 1000 "tick" onceOkTask)
      "tick" = none :=
  ⟨rfl, rfl, rfl⟩

/-- Claim C4. The claim states that `resumeTask` after `pauseTask` on a
recurring task succeeds and re-arms from the resume instant.  Because
`pauseTask` deletes the registry entry (see C2), the subsequent
`resumeTask` cannot find the task and throws the task-not-found error
instead. -/
theorem resume_after_pause_raises_not_found :
    (resumeTask pausedState 600000 "report").result =
      .error (.taskNotFound "report") :=
  rfl

/-- Claim C5. The claim states that pausing an already-paused task does
not raise and is a no-op.  Because the first `pauseTask` deletes the
registry entry (see C2), the second `pauseTask` throws the
task-not-found error instead of being a no-op. -/
theorem pause_after_pause_raises_not_found :
    (pauseTask pausedState "report").result =
      .error (.taskNotFound "report") :=
  rfl

/-- Claim C6. Registering any task under a name already present in the
registry fails with the duplicate-task error, and the whole scheduler
state — the original task's definition, status, and armed timer — is
left exactly as it was. -/
theorem duplicate_registration_rejected (s : SchedulerState) (now : Int)
    (n : String) (cb : Except String Unit) (iv : Interval)
    (o : ScheduleOptions) (h : mapHas s.tasks n = true) :
    (scheduleTask s now n cb iv o).result = .error (.duplicateTask n) ∧
    (scheduleTask s now n cb iv o).state = s := by
  simp [scheduleTask, h]

/-- Witness for C6: re-registering `report` over `regState` fails with
the duplicate-task error and leaves the state unchanged. -/
theorem duplicate_registration_rejected_witness :
    (scheduleTask regState 7 "report" cbOk (.once 99) {}).result =
      .error (.duplicateTask "report") ∧
    (scheduleTask regState 7 "report" cbOk (.once 99) {}).state =
      regState :=
  duplicate_registration_rejected regState 7 "report" cbOk (.once 99) {}
    rfl

/-- Claim C7. `scheduleOnce` with a target date not strictly after the
current time fails with the invalid-schedule error leaving the state
untouched (no task inserted, no timer armed); with a strictly-future
date it behaves exactly as `scheduleTask` with a one-time interval. -/
theorem schedule_once_validates_future (s : SchedulerState) (now : Int)
    (n : String) (cb : Except String Unit) (d : Int) :
    (d ≤ now →
      (scheduleOnce s now n cb d).result = .error .notInFuture ∧
      (scheduleOnce s now n cb d).state = s) ∧
    (now < d →
      scheduleOnce s now n cb d = scheduleTask s now n cb (.once d) {}) := by
  constructor
  · intro h
    simp [scheduleOnce, h]
  · intro h
    simp [scheduleOnce, not_le.mpr h]

/-- Witness for C7: at time 5, target 5 (not strictly future) is
rejected with the state untouched; at time 0, target 5 registers as a
one-time task. -/
theorem schedule_once_validates_future_witness :
    ((scheduleOnce emptyState 5 "a" cbOk 5).result = .error .notInFuture ∧
     (scheduleOnce emptyState 5 "a" cbOk 5).state = emptyState) ∧
    scheduleOnce emptyState 0 "a" cbOk 5 =
      scheduleTask emptyState 0 "a" cbOk (.once 5) {} :=
  ⟨(schedule_once_validates_future emptyState 5 "a" cbOk 5).1 (by decide),
   (schedule_once_validates_future emptyState 0 "a" cbOk 5).2 (by decide)⟩

/-- Claim C8. Arming a recurring-by-unit task computes the next fire
time as the current time plus value×unit (60000 ms per minute, 3600000
per hour, 86400000 per day) — relative to the `now` passed in, with no
reference to the registration time, so no drift compensation; any other
unit fails with the unsupported-unit error.  `scheduleNextRun` is the
single arming routine: `scheduleTask` (first arm), `executeTask`
(re-arm after a fire) and `resumeTask` (re-arm on resume) all invoke it
with the current time, so this covers every arming. -/
theorem recurring_arming_from_now (s : SchedulerState) (now : Int)
    (n : String) (task : Task) (u : String) (v : Int)
    (hget : mapGet s.tasks n = some task)
    (hst : task.status = .scheduled)
    (hiv : task.interval = .recurring u v) :
    (u = "minutes" → scheduleNextRun s now n =
      ⟨.ok (), { s with
        scheduledJobs := mapSet s.scheduledJobs n ⟨now + v * 60000⟩ }⟩) ∧
    (u = "hours" → scheduleNextRun s now n =
      ⟨.ok (), { s with
        scheduledJobs := mapSet s.scheduledJobs n ⟨now + v * 3600000⟩ }⟩) ∧
    (u = "days" → scheduleNextRun s now n =
      ⟨.ok (), { s with
        scheduledJobs := mapSet s.scheduledJobs n ⟨now + v * 86400000⟩ }⟩) ∧
    (u ≠ "minutes" → u ≠ "hours" → u ≠ "days" →
      scheduleNextRun s now n = ⟨.error (.unsupportedUnit u), s⟩) := by
  refine ⟨?_, ?_, ?_, ?_⟩
  · intro h
    simp [scheduleNextRun, hget, hst, hiv, computeNext, calculateNextRun, h]
  · intro h
    simp [scheduleNextRun, hget, hst, hiv, computeNext, calculateNextRun, h]
  · intro h
    simp [scheduleNextRun, hget, hst, hiv, computeNext, calculateNextRun, h]
  · intro h1 h2 h3
    simp [scheduleNextRun, hget, hst, hiv, computeNext, calculateNextRun,
      h1, h2, h3]

/-- Witness for C8: arming the 5-minute task of `boomState` at 300000
sets its fire time to 300000 + 5×60000, and arming a task with the
unrecognized unit `weeks` fails with the unsupported-unit error. -/
theorem recurring_arming_from_now_witness :
    scheduleNextRun boomState 300000 "job" =
      ⟨.ok (), { boomState with
        scheduledJobs :=
          mapSet boomState.scheduledJobs "job" ⟨300000 + 5 * 60000⟩ }⟩ ∧
    scheduleNextRun weeksState 0 "w" =
      ⟨.error (.unsupportedUnit "weeks"), weeksState⟩ :=
  ⟨(recurring_arming_from_now boomState 300000 "job" boomTask
      "minutes" 5 rfl rfl rfl).1 rfl,
   (recurring_arming_from_now weeksState 0 "w" weeksTask "weeks" 1
      rfl rfl rfl).2.2.2 (by decide) (by decide) (by decide)⟩

/-- Claim C9. `cancelTask` never throws (it is a total function into
states in this embedding), removes the registry entry and the armed
timer for the name whatever its prior state (scheduled, paused or
absent), `getTaskStatus` returns null afterwards, and cancelling a
second time changes nothing. -/
theorem cancel_removes_and_idempotent (s : SchedulerState) (n : String) :
    getTaskStatus (cancelTask s n) n = none ∧
    mapGet (cancelTask s n).scheduledJobs n = none ∧
    cancelTask (cancelTask s n) n = cancelTask s n := by
  refine ⟨?_, ?_, ?_⟩ <;>
    simp [cancelTask_eq, getTaskStatus, mapGet_delete_self, mapDelete_idem]

/-- Claim C10. Registration is not atomic with respect to arming
failures: for a fresh name whose arming step throws (unsupported
recurring unit, malformed interval shape, or a cron `next` function that
throws — exactly the error cases of `computeNext`), `scheduleTask`
propagates the error but has already inserted the task, so the registry
keeps it with status `scheduled`, no timer is armed, and
`getTaskStatus` returns a non-null record with `nextRun` null. -/
theorem registration_inserts_before_arming (s : SchedulerState)
    (now : Int) (n : String) (cb : Except String Unit) (iv : Interval)
    (o : ScheduleOptions) (e : SchedErr)
    (htask : mapGet s.tasks n = none)
    (hjob : mapGet s.scheduledJobs n = none)
    (harm : computeNext iv now = .error e) :
    (scheduleTask s now n cb iv o).result = .error e ∧
    getTaskStatus (scheduleTask s now n cb iv o).state n =
      some ⟨n, .scheduled, none⟩ := by
  have hhas : mapHas s.tasks n = false :=
    mapHas_false_of_get_none _ _ htask
  simp [scheduleTask, hhas, scheduleNextRun, mapGet_set_self, harm,
    getTaskStatus, getNextRunTime, hjob]

/-- Witness for C10: registering `bad` with a malformed interval over
the fresh scheduler throws the invalid-interval error yet leaves `bad`
in the registry, scheduled, with no armed timer. -/
theorem registration_inserts_before_arming_witness :
    (scheduleTask emptyState 0 "bad" cbOk .malformed {}).result =
      .error .invalidInterval ∧
    getTaskStatus (scheduleTask emptyState 0 "bad" cbOk .malformed
      {}).state "bad" = some ⟨"bad", .scheduled, none⟩ :=
  registration_inserts_before_arming emptyState 0 "bad" cbOk .malformed
    {} .invalidInterval rfl rfl rfl

end NodeScheduler
